import Mathlib

set_option maxHeartbeats 1000000

/-!
Verification of the deadbeef-lyricbar lyrics-resolution pipeline
(src/utils.cpp).  Text values (std::string, Glib::ustring) are modelled as
lists of characters; external collaborators (the GLib character
classification and URI escaping, the deadbeef track-metadata store, the
configured script command and its process execution, the network) are
modelled as explicit environment records.  `fetch_file_as_chrome` can throw
(std::runtime_error on an oversized body), so every code path that can reach
it lives in the `Except Unit` monad; `Except.error ()` models a C++
exception propagating.
-/

namespace Lyricbar

/-- Characters of a text value; C++ strings are modelled as `List Char`. -/
abbrev Chars := List Char

/-! ## Cache store (utils.cpp: cached_filename, load_cached_lyrics) -/

/-- Effect of `std::replace(begin, end, '/', '_')` on one character. -/
def slashToUnderscore (c : Char) : Char := if c = '/' then '_' else c

/-- `cached_filename` (utils.cpp:36-41): replaces every '/' in artist and in
title with '_' and returns `lyrics_dir + artist + '-' + title`.  The global
`lyrics_dir` is passed explicitly as `dir`. -/
def cached_filename (dir artist title : Chars) : Chars :=
  dir ++ artist.map slashToUnderscore ++ '-' :: title.map slashToUnderscore

/-! ## Track metadata (utils.cpp: get_lyrics_from_metadata) -/

/-- Metadata fields of a `DB_playItem_t` as read through `pl_find_meta`;
`none` models a NULL return. -/
structure Track where
  meta_unsynced : Option Chars
  meta_unsynced_caps : Option Chars
  meta_lyrics : Option Chars
  artist : Option Chars
  title : Option Chars

/-- `get_lyrics_from_metadata` (utils.cpp:91-99): first non-null among the
"unsynced lyrics", "UNSYNCEDLYRICS" and "lyrics" fields. -/
def get_lyrics_from_metadata (t : Track) : Option Chars :=
  match t.meta_unsynced with
  | some l => some l
  | none =>
    match t.meta_unsynced_caps with
    | some l => some l
    | none => t.meta_lyrics

/-! ## External script provider (utils.cpp: get_lyrics_from_script) -/

/-- Collaborators of `get_lyrics_from_script`: the configured
`lyricbar.customcmd` value (empty list when unset, i.e. `buf[0] == 0`),
whether `tf_compile` succeeds, the `tf_eval` result (`none` for a negative
length), the outcome of `spawn_command_line_sync` on a command (`none`
models a thrown `Glib::Error`, otherwise captured stdout and exit status),
and `Glib::ustring::validate` on the captured output. -/
structure ScriptEnv where
  customcmd : Chars
  compiles : Bool
  tf_eval : Option Chars
  spawn : Chars → Option (Chars × Int)
  validate : Chars → Bool

/-- `get_lyrics_from_script` (utils.cpp:101-144). -/
def get_lyrics_from_script (e : ScriptEnv) : Option Chars :=
  if e.customcmd = [] then none
  else if !e.compiles then none
  else
    match e.tf_eval with
    | none => none
    | some cmd =>
      match e.spawn cmd with
      | none => none
      | some (out, status) =>
        if out = [] || status ≠ 0 then none
        else if !e.validate out then none
        else some out

/-- Control-flow observation on `get_lyrics_from_script`: true exactly when
execution reaches the `spawn_command_line_sync` call (utils.cpp:128). -/
def script_attempts_spawn (e : ScriptEnv) : Bool :=
  if e.customcmd = [] then false
  else if !e.compiles then false
  else e.tf_eval.isSome

/-! ## Text normalization (utils.cpp: alphadigitize) -/

/-- Accumulator loop of `alphadigitize` (utils.cpp:146-152): `res` collects,
in order, the characters satisfying `g_unichar_isalpha || g_unichar_isdigit`
(the two GLib predicates are abstract parameters). -/
def alphadigitize_go (isalpha isdigit : Char → Bool) : Chars → Chars → Chars
  | res, [] => res
  | res, c :: cs =>
    alphadigitize_go isalpha isdigit
      (if isalpha c || isdigit c then res ++ [c] else res) cs

/-- `alphadigitize` (utils.cpp:146-152), as a value-returning function (the
C++ version overwrites its by-reference argument with `res`). -/
def alphadigitize (isalpha isdigit : Char → Bool) (s : Chars) : Chars :=
  alphadigitize_go isalpha isdigit [] s

/-! ## HTTP fetch (utils.cpp: fetch_file_as_chrome) -/

/-- Outcome of `soup_session_send` plus the response stream:
`transportFailure` models a NULL stream, otherwise the HTTP status and the
successive `g_input_stream_read` chunks (a read returns `0` — modelled by an
empty chunk or the end of the list — only at end of stream). -/
inductive FetchOutcome where
  | transportFailure : FetchOutcome
  | response (status : Nat) (chunks : List Chars) : FetchOutcome

/-- Size cap of `fetch_file_as_chrome` (utils.cpp:168): 1 MiB. -/
def MAX_FILE_SIZE : Nat := 2 ^ 20

/-- Read loop of `fetch_file_as_chrome` (utils.cpp:169-181): accumulate
chunks; a zero-length read returns the accumulated body; exceeding
`MAX_FILE_SIZE` throws `std::runtime_error` (modelled by `Except.error`). -/
def fetch_loop : Chars → List Chars → Except Unit Chars
  | res, [] => Except.ok res
  | res, chunk :: rest =>
    if chunk.length = 0 then Except.ok res
    else if res.length + chunk.length > MAX_FILE_SIZE then Except.error ()
    else fetch_loop (res ++ chunk) rest

/-- `fetch_file_as_chrome` (utils.cpp:157-184): empty option on a NULL
stream or a non-2xx status, otherwise the streamed body, with the oversized
case propagating as an exception. -/
def fetch_file_as_chrome : FetchOutcome → Except Unit (Option Chars)
  | FetchOutcome.transportFailure => Except.ok none
  | FetchOutcome.response status chunks =>
    if status / 100 ≠ 2 then Except.ok none
    else
      match fetch_loop [] chunks with
      | Except.error e => Except.error e
      | Except.ok res => Except.ok (some res)

/-! ## Web scrape provider (utils.cpp: download_lyrics_from_azlyrics) -/

/-- GLib text collaborators used by the scrape provider:
`g_unichar_isalpha`, `g_unichar_isdigit`, the per-character effect of
`Glib::ustring::lowercase`, and `Glib::uri_escape_string` with an empty
allow-list. -/
structure GlibEnv where
  isalpha : Char → Bool
  isdigit : Char → Bool
  tolower : Char → Char
  uriEscape : Chars → Chars

/-- `AZL_FMT` (utils.cpp:29) instantiated by `ustring::compose`. -/
def azl_url (artist title : Chars) : Chars :=
  ("https://www.azlyrics.com/lyrics/").toList ++ artist ++ '/' :: title
    ++ (".html").toList

/-- Bracket test of the truncation loop (utils.cpp:216-218). -/
def is_bracket (c : Char) : Bool := c = '(' || c = ')' || c = '[' || c = ']'

/-- Title truncation after a failed fetch (utils.cpp:216-223): drop trailing
characters while the last one is not a bracket; if the title becomes empty
the provider aborts (`none`), otherwise the bracket itself is also dropped
and the loop retries with the result. -/
def truncate_title (title : Chars) : Option Chars :=
  match title.reverse.dropWhile (fun c => !is_bracket c) with
  | [] => none
  | _ :: rest => some rest.reverse

/-- Retry loop of `download_lyrics_from_azlyrics` (utils.cpp:205-224),
with an explicit fuel argument (the wrapper `scrape_loop` supplies
`title.length + 1`, which is never exhausted because each retry strictly
shortens the title). -/
def scrape_go (g : GlibEnv) (fetch : Chars → Except Unit (Option Chars))
    (artist : Chars) : Nat → Chars → Except Unit (Option Chars)
  | 0, _ => Except.ok none
  | fuel + 1, title =>
    match fetch (azl_url (g.uriEscape artist)
        (g.uriEscape (alphadigitize g.isalpha g.isdigit title))) with
    | Except.error e => Except.error e
    | Except.ok (some doc) => Except.ok (some doc)
    | Except.ok none =>
      match truncate_title title with
      | none => Except.ok none
      | some t2 => scrape_go g fetch artist fuel t2

/-- The retry loop of utils.cpp:205-224 entered on the lowercased title. -/
def scrape_loop (g : GlibEnv) (fetch : Chars → Except Unit (Option Chars))
    (artist title : Chars) : Except Unit (Option Chars) :=
  scrape_go g fetch artist (title.length + 1) title

/-- Fetch-call counter of the retry loop: same recursion as `scrape_go`,
counting how many times `fetch_file_as_chrome` is invoked. -/
def scrape_calls (g : GlibEnv) (fetch : Chars → Except Unit (Option Chars))
    (artist : Chars) : Nat → Chars → Nat
  | 0, _ => 0
  | fuel + 1, title =>
    match fetch (azl_url (g.uriEscape artist)
        (g.uriEscape (alphadigitize g.isalpha g.isdigit title))) with
    | Except.error _ => 1
    | Except.ok (some _) => 1
    | Except.ok none =>
      match truncate_title title with
      | none => 1
      | some t2 => 1 + scrape_calls g fetch artist fuel t2

/-! ## HTML extraction and cleaning (utils.cpp:228-246)

The extraction regex is
`<div>\s*<!--\s*Usage of azlyrics.com content[^]*?-->\s*([^]*?)\s*</div>`
(ECMAScript, `regex_search`, leftmost match).  Its deterministic meaning:
at the leftmost position where `<div>` is followed (modulo whitespace) by
`<!--`, then (modulo whitespace) the marker text, the lazy `[^]*?-->` ends
at the first `-->`; after greedy whitespace the lazy capture extends to the
first `</div>`, with the greedy `\s*` absorbing the capture's trailing
whitespace. -/

/-- Whitespace characters matched by `\s` in `std::regex` (C locale). -/
def isWs (c : Char) : Bool :=
  c = ' ' || c = '\t' || c = '\n' || c = '\x0b' || c = '\x0c' || c = '\r'

/-- Split a list at the first occurrence of the pattern `pat`:
`splitOnSub pat l = some (pre, post)` with `l = pre ++ pat ++ post`,
`pre` shortest possible; `none` when `pat` does not occur. -/
def splitOnSub (pat : Chars) : Chars → Option (Chars × Chars)
  | [] => none
  | c :: cs =>
    if pat.isPrefixOf (c :: cs) then some ([], (c :: cs).drop pat.length)
    else
      match splitOnSub pat cs with
      | some (pre, post) => some (c :: pre, post)
      | none => none

/-- Remove trailing whitespace (the greedy `\s*` before `</div>`). -/
def rstripWs (l : Chars) : Chars := (l.reverse.dropWhile isWs).reverse

/-- Literal marker text inside the extraction regex. -/
def azl_marker : Chars := ("Usage of azlyrics.com content").toList

/-- Match of the extraction regex anchored at the current position
(which must carry the literal `<div>`); returns the capture group. -/
def match_div_at (l : Chars) : Option Chars :=
  if ("<div>").toList.isPrefixOf l then
    let l1 := (l.drop 5).dropWhile isWs
    if ("<!--").toList.isPrefixOf l1 then
      let l2 := (l1.drop 4).dropWhile isWs
      if azl_marker.isPrefixOf l2 then
        match splitOnSub (("-->").toList) (l2.drop azl_marker.length) with
        | none => none
        | some (_, after) =>
          match splitOnSub (("</div>").toList) (after.dropWhile isWs) with
          | none => none
          | some (cap, _) => some (rstripWs cap)
      else none
    else none
  else none

/-- `regex_search` with the extraction regex (utils.cpp:228-233): the
capture group of the leftmost match, `none` when there is no match. -/
def regex_extract : Chars → Option Chars
  | [] => none
  | c :: cs =>
    match match_div_at (c :: cs) with
    | some cap => some cap
    | none => regex_extract cs

/-- Generic left-to-right scan of `std::regex_replace`: `m` reports a match
at the current position as (consumed length ≥ 1, replacement).  The fuel
equals the list length, which suffices since every step consumes at least
one character. -/
def replace_scan (m : Chars → Option (Nat × Chars)) : Nat → Chars → Chars
  | _, [] => []
  | 0, l => l
  | n + 1, c :: cs =>
    match m (c :: cs) with
    | some (k, rep) => rep ++ replace_scan m n ((c :: cs).drop k)
    | none => c :: replace_scan m n cs

/-- Match of `<br\s*/?\s*>` (utils.cpp:236) at the current position,
returning its length. -/
def br_match_len (l : Chars) : Option Nat :=
  match l with
  | '<' :: 'b' :: 'r' :: rest =>
    let w := (rest.takeWhile isWs).length
    match rest.drop w with
    | '/' :: rest2 =>
      let w2 := (rest2.takeWhile isWs).length
      (match rest2.drop w2 with
       | '>' :: _ => some (3 + w + 1 + w2 + 1)
       | _ => none)
    | '>' :: _ => some (3 + w + 1)
    | _ => none
  | _ => none

/-- Matcher for `regex_replace(lyrics, br_expr, "")`. -/
def br_matcher (l : Chars) : Option (Nat × Chars) :=
  (br_match_len l).map (fun k => (k, ([] : Chars)))

/-- Matcher for `regex_replace(lyrics, tag_expr, "")` with `<[^>]*>`:
at `<`, consume up to and including the first `>`. -/
def tag_matcher (l : Chars) : Option (Nat × Chars) :=
  match l with
  | '<' :: rest =>
    let body := rest.takeWhile (fun c => c ≠ '>')
    if body.length < rest.length then some (2 + body.length, ([] : Chars))
    else none
  | _ => none

/-- Matcher for `regex_replace(lyrics, quot_expr, "\"")` with `&quot;`. -/
def quot_matcher (l : Chars) : Option (Nat × Chars) :=
  if ("&quot;").toList.isPrefixOf l then some (6, ['"']) else none

/-- `regex_replace` with `br_expr` (utils.cpp:236-237). -/
def remove_br (l : Chars) : Chars := replace_scan br_matcher l.length l

/-- `regex_replace` with `tag_expr` (utils.cpp:238-239). -/
def strip_tags (l : Chars) : Chars := replace_scan tag_matcher l.length l

/-- `regex_replace` with `quot_expr` (utils.cpp:240-241). -/
def replace_quot (l : Chars) : Chars := replace_scan quot_matcher l.length l

/-- Cleaning of the captured fragment (utils.cpp:235-246): remove `<br>`
tags, strip remaining tags, unescape `&quot;`; empty result gives the empty
option, otherwise a final newline is appended when not already present. -/
def clean_lyrics (frag : Chars) : Option Chars :=
  let l := replace_quot (strip_tags (remove_br frag))
  if l = [] then none
  else some (if l.getLast? = some '\n' then l else l ++ ['\n'])

/-- Extraction plus cleaning applied to a fetched document
(utils.cpp:228-246). -/
def process_document (doc : Chars) : Option Chars :=
  match regex_extract doc with
  | none => none
  | some frag => clean_lyrics frag

/-- `download_lyrics_from_azlyrics` (utils.cpp:186-247): read artist/title
metadata (either NULL gives the empty option), lowercase both, normalize the
artist, run the retry loop, then extract and clean the fetched document. -/
def download_lyrics_from_azlyrics (g : GlibEnv)
    (fetch : Chars → Except Unit (Option Chars)) (track : Track) :
    Except Unit (Option Chars) :=
  match track.artist, track.title with
  | some artist_raw, some title_raw =>
    let artist := alphadigitize g.isalpha g.isdigit
      (artist_raw.map g.tolower)
    let title := title_raw.map g.tolower
    match scrape_loop g fetch artist title with
    | Except.error e => Except.error e
    | Except.ok none => Except.ok none
    | Except.ok (some doc) => Except.ok (process_document doc)
  | _, _ => Except.ok none

/-! ## Resolution orchestrator (utils.cpp: update_lyrics) -/

/-- One `set_lyrics` call: real lyrics text, the "Loading..." placeholder,
or the "Lyrics not found" placeholder. -/
inductive Published where
  | lyrics (s : Chars) : Published
  | loading : Published
  | notFound : Published
deriving DecidableEq

/-- Observable effects of one `update_lyrics` run: the ordered `set_lyrics`
calls and the `save_cached_lyrics(artist, title, lyrics)` call, if any. -/
structure UpdateResult where
  published : List Published
  saved : Option (Chars × Chars × Chars)
deriving DecidableEq

/-- Full environment of `update_lyrics`: GLib collaborators, the track, the
global `lyrics_dir`, the cache-file contents by path (`none` models both a
missing file and a read error, which `load_cached_lyrics` catches), the
script-provider collaborators and the network responses by URL. -/
structure Env where
  glib : GlibEnv
  track : Track
  lyricsDir : Chars
  cache : Chars → Option Chars
  script : ScriptEnv
  responses : Chars → FetchOutcome

/-- The fetch function the scrape provider actually uses: `fetch_file_as_chrome`
applied to the network's response for the URL. -/
def env_fetch (env : Env) : Chars → Except Unit (Option Chars) :=
  fun url => fetch_file_as_chrome (env.responses url)

/-- `load_cached_lyrics` (utils.cpp:59-68): contents of the file at
`cached_filename`, with any `FileError` caught into the empty option. -/
def load_cached_lyrics (env : Env) (artist title : Chars) : Option Chars :=
  env.cache (cached_filename env.lyricsDir artist title)

/-- The fixed provider array (utils.cpp:34): the script provider, then the
azlyrics scrape provider.  The script provider cannot throw, so it is
injected into the `Except` monad with `Except.ok`. -/
def providers : List (Env → Except Unit (Option Chars)) :=
  [fun env => Except.ok (get_lyrics_from_script env.script),
   fun env => download_lyrics_from_azlyrics env.glib (env_fetch env) env.track]

/-- Provider loop of `update_lyrics` (utils.cpp:274-280): first success
wins; a thrown exception propagates. -/
def first_provider_result (env : Env) :
    List (Env → Except Unit (Option Chars)) → Except Unit (Option Chars)
  | [] => Except.ok none
  | f :: fs =>
    match f env with
    | Except.error e => Except.error e
    | Except.ok (some l) => Except.ok (some l)
    | Except.ok none => first_provider_result env fs

/-- `update_lyrics` (utils.cpp:249-283): metadata, then (when artist and
title are present) cache, then the provider chain with a "Loading..."
placeholder first and a cache write-back on success; "Lyrics not found"
otherwise. -/
def update_lyrics (env : Env) : Except Unit UpdateResult :=
  match get_lyrics_from_metadata env.track with
  | some l => Except.ok ⟨[Published.lyrics l], none⟩
  | none =>
    match env.track.artist, env.track.title with
    | some artist, some title =>
      match load_cached_lyrics env artist title with
      | some l => Except.ok ⟨[Published.lyrics l], none⟩
      | none =>
        match first_provider_result env providers with
        | Except.error e => Except.error e
        | Except.ok (some l) =>
          Except.ok ⟨[Published.loading, Published.lyrics l],
            some (artist, title, l)⟩
        | Except.ok none =>
          Except.ok ⟨[Published.loading, Published.notFound], none⟩
    | _, _ => Except.ok ⟨[Published.notFound], none⟩

/-! ## Concrete instances used by witnesses and counterexamples -/

/-- ASCII instantiation of the GLib collaborators (the GLib predicates and
case mapping agree with these on ASCII, and the URI escaping is the identity
on the unreserved alphanumeric strings produced here). -/
def glibAscii : GlibEnv :=
  ⟨fun c => c.isAlpha, fun c => c.isDigit, Char.toLower, fun s => s⟩

/-- Script environment with `lyricbar.customcmd` unset. -/
def scriptOff : ScriptEnv := ⟨[], false, none, fun _ => none, fun _ => false⟩

/-- Script environment whose configured command succeeds with output "S". -/
def scriptOn : ScriptEnv :=
  ⟨("x").toList, true, some (("x").toList),
   fun _ => some (("S").toList, 0), fun _ => true⟩

/-- Track with artist "a" and title "t" and no embedded lyrics. -/
def trackBasic : Track :=
  ⟨none, none, none, some (("a").toList), some (("t").toList)⟩

/-- Environment whose every fetch returns a body one byte over the 1 MiB
cap. -/
def envBig : Env :=
  ⟨glibAscii, trackBasic, ("/cache/").toList, fun _ => none, scriptOff,
   fun _ => FetchOutcome.response 200 [List.replicate (2 ^ 20 + 1) 'a']⟩

/-- Environment whose every fetch fails at the transport level. -/
def envOk : Env :=
  ⟨glibAscii, trackBasic, ("/cache/").toList, fun _ => none, scriptOff,
   fun _ => FetchOutcome.transportFailure⟩

/-- Environment where the script provider succeeds with output "S". -/
def env3 : Env :=
  ⟨glibAscii, trackBasic, ("/cache/").toList, fun _ => none, scriptOn,
   fun _ => FetchOutcome.transportFailure⟩

/-- Track without a title. -/
def trackNoTitle : Track := ⟨none, none, none, some (("a").toList), none⟩

/-- Environment for a track without a title. -/
def env9 : Env :=
  ⟨glibAscii, trackNoTitle, ("/cache/").toList, fun _ => none, scriptOff,
   fun _ => FetchOutcome.transportFailure⟩

/-- Fetch that succeeds exactly for the query derived from "Song". -/
def fetch4 : Chars → Except Unit (Option Chars) :=
  fun url =>
    if url = azl_url (("artist").toList) (("song").toList) then
      Except.ok (some (("DOC").toList))
    else Except.ok none

/-- Fetch that always reports a plain failure (empty option). -/
def fetchNone : Chars → Except Unit (Option Chars) :=
  fun _ => Except.ok none

/-- Document of the end-to-end cleaning example (spec §8), with the comment
ellipses instantiated by whitespace so the marker regex applies. -/
def doc5a : Chars :=
  ("<div><!-- Usage of azlyrics.com content --> Line one<br>Line two &quot;quoted&quot; </div>").toList

/-- Document whose captured fragment ends in two newlines followed by a
`<br>` tag. -/
def doc5b : Chars :=
  ("<div><!-- Usage of azlyrics.com content -->A\n\n<br></div>").toList

end Lyricbar

namespace Lyricbar

/-! ## Helper lemmas -/

/-- The accumulator loop of `alphadigitize` is `List.filter`. -/
lemma alphadigitize_go_eq (pa pd : Char → Bool) (s : Chars) : ∀ res : Chars,
    alphadigitize_go pa pd res s = res ++ s.filter (fun c => pa c || pd c) := by
  induction s with
  | nil => intro res; simp [alphadigitize_go]
  | cons c cs ih =>
    intro res
    cases h : (pa c || pd c) <;>
      simp [alphadigitize_go, h, ih, List.filter_cons, List.append_assoc]

/-- Characterization of `alphadigitize` as a filter. -/
lemma alphadigitize_eq_filter (pa pd : Char → Bool) (s : Chars) :
    alphadigitize pa pd s = s.filter (fun c => pa c || pd c) := by
  simpa [alphadigitize] using alphadigitize_go_eq pa pd s []

/-- Dropping while a predicate holds skips a block where it holds
everywhere. -/
lemma dropWhile_append_of_all (p : Char → Bool) :
    ∀ l1 l2 : Chars, (∀ c ∈ l1, p c = true) →
      (l1 ++ l2).dropWhile p = l2.dropWhile p := by
  intro l1
  induction l1 with
  | nil => intro l2 _; rfl
  | cons c cs ih =>
    intro l2 h
    have hc : p c = true := h c (by simp)
    simp [List.dropWhile_cons, hc]
    exact ih l2 (fun d hd => h d (by simp [hd]))

/-- Matching lists under the slash substitution have equal substituted
images. -/
lemma slashCompatible_map_eq : ∀ a b : Chars,
    List.Forall₂ (fun c d => slashToUnderscore c = slashToUnderscore d) a b →
    a.map slashToUnderscore = b.map slashToUnderscore := by
  intro a b h
  induction h with
  | nil => rfl
  | cons hcd _ ih => simp [List.map_cons, hcd, ih]

/-- The read loop throws whenever the (nonempty-chunk) stream carries more
than the cap in total. -/
lemma fetch_loop_error : ∀ (chunks : List Chars) (acc : Chars),
    (∀ c ∈ chunks, c ≠ ([] : Chars)) →
    acc.length ≤ MAX_FILE_SIZE →
    acc.length + (chunks.map List.length).sum > MAX_FILE_SIZE →
    fetch_loop acc chunks = Except.error () := by
  intro chunks
  induction chunks with
  | nil => intro acc _ hle hgt; simp at hgt; omega
  | cons c rest ih =>
    intro acc hne hle hgt
    have hc : c ≠ ([] : Chars) := hne c (by simp)
    have hclen : c.length ≠ 0 := by
      simpa [List.length_eq_zero] using hc
    by_cases hcap : acc.length + c.length > MAX_FILE_SIZE
    · simp [fetch_loop, hclen, hcap]
    · have hle2 : (acc ++ c).length ≤ MAX_FILE_SIZE := by
        simp [List.length_append]; omega
      have hgt2 : (acc ++ c).length + (rest.map List.length).sum
          > MAX_FILE_SIZE := by
        simp [List.length_append] at hgt ⊢; omega
      have := ih (acc ++ c) (fun d hd => hne d (by simp [hd])) hle2 hgt2
      simp [fetch_loop, hclen, hcap, this]

/-- Dropping a while-block never lengthens a list. -/
lemma length_dropWhile_le_self (p : Char → Bool) : ∀ l : Chars,
    (l.dropWhile p).length ≤ l.length := by
  intro l
  induction l with
  | nil => simp
  | cons c cs ih =>
    by_cases hc : p c = true
    · simp [List.dropWhile_cons, hc]; omega
    · simp [List.dropWhile_cons, hc]

/-- A truncation step strictly shortens the title. -/
lemma truncate_title_length_lt : ∀ t t2 : Chars,
    truncate_title t = some t2 → t2.length < t.length := by
  intro t t2 h
  unfold truncate_title at h
  cases hd : t.reverse.dropWhile (fun c => !is_bracket c) with
  | nil => rw [hd] at h; exact absurd h (by simp)
  | cons b rest =>
    rw [hd] at h
    have hlen : (b :: rest).length ≤ t.length := by
      have := length_dropWhile_le_self (fun c => !is_bracket c) t.reverse
      rw [hd] at this
      simpa using this
    have ht2 : t2 = rest.reverse := by
      simpa using h.symm
    subst ht2
    simp at hlen ⊢
    omega

end Lyricbar

namespace Lyricbar

/-! ## Claim C7: the normalizer is a pure idempotent order-preserving filter -/

/-- C7: for every pair of character-class predicates and every input string,
`alphadigitize` removes exactly the characters failing the
alphabetic-or-digit test (it equals `List.filter`), is idempotent, preserves
the relative order of the remaining characters (the result is a sublist of
the input), and maps the empty string to the empty string.  Being a Lean
function, it has no side effects. -/
theorem C7_alphadigitize_filter_idempotent :
    ∀ (pa pd : Char → Bool) (s : Chars),
      alphadigitize pa pd s = s.filter (fun c => pa c || pd c)
      ∧ alphadigitize pa pd (alphadigitize pa pd s) = alphadigitize pa pd s
      ∧ (alphadigitize pa pd s).Sublist s
      ∧ alphadigitize pa pd ([] : Chars) = [] := by
  intro pa pd s
  refine ⟨alphadigitize_eq_filter pa pd s, ?_, ?_, rfl⟩
  · simp [alphadigitize_eq_filter, List.filter_filter]
  · rw [alphadigitize_eq_filter]
    exact List.filter_sublist s

/-! ## Claim C6: cache key collisions -/

/-- C6 counterexample: the pairs ("a-b", "c") and ("a", "b-c") are distinct,
are not related by the '/'→'_' substitution (their substituted images
differ), yet their cache paths coincide — so the cache key is not injective
even modulo that substitution: the '-' separator is ambiguous. -/
theorem C6_counterexample :
    cached_filename (("/cache/").toList) (("a-b").toList) (("c").toList)
      = cached_filename (("/cache/").toList) (("a").toList) (("b-c").toList)
    ∧ ((("a-b").toList, ("c").toList) ≠ ((("a").toList), (("b-c").toList)))
    ∧ ((("a-b").toList.map slashToUnderscore, ("c").toList.map slashToUnderscore)
        ≠ ((("a").toList.map slashToUnderscore), (("b-c").toList.map slashToUnderscore))) := by
  refine ⟨rfl, ?_, ?_⟩ <;> decide

/-- C6 (amended): the cache key is a pure function of (artist, title) that
replaces '/' by '_' in each field and concatenates
`dir ++ artist ++ "-" ++ title`; any two pairs whose components differ only
by '/' versus '_' at some positions (formalized: componentwise `Forall₂`
under equality of the substituted characters) receive the same path, so the
key is not injective — and the concrete instance ("a/b", "t") versus
("a_b", "t") collides while being distinct. -/
theorem C6_cache_key_collision :
    (∀ dir a1 t1 a2 t2 : Chars,
      List.Forall₂ (fun c d => slashToUnderscore c = slashToUnderscore d) a1 a2 →
      List.Forall₂ (fun c d => slashToUnderscore c = slashToUnderscore d) t1 t2 →
      cached_filename dir a1 t1 = cached_filename dir a2 t2)
    ∧ (cached_filename (("/cache/").toList) (("a/b").toList) (("t").toList)
        = cached_filename (("/cache/").toList) (("a_b").toList) (("t").toList)
       ∧ ("a/b").toList ≠ ("a_b").toList) := by
  refine ⟨?_, rfl, by decide⟩
  intro dir a1 t1 a2 t2 ha ht
  unfold cached_filename
  rw [slashCompatible_map_eq a1 a2 ha, slashCompatible_map_eq t1 t2 ht]

/-- C6 witness: the collision theorem applied to the pair ("x/y", "s") and
("x_y", "s"). -/
theorem C6_witness :
    cached_filename (("d/").toList) (("x/y").toList) (("s").toList)
      = cached_filename (("d/").toList) (("x_y").toList) (("s").toList) :=
  C6_cache_key_collision.1 (("d/").toList) _ _ _ _
    (by decide) (by decide)

/-! ## Claim C1: the 1 MiB fetch cap throws; other failures return empty -/

/-- C1: for a 2xx response whose streamed body (nonempty reads only, as
`g_input_stream_read` returns 0 only at end of stream) totals more than
2^20 bytes, `fetch_file_as_chrome` propagates a fault (`Except.error`)
instead of returning the empty option; a non-2xx status or a transport
failure (NULL stream) returns the empty option. -/
theorem C1_fetch_cap_behavior :
    ∀ (status : Nat) (chunks : List Chars),
      ((∀ c ∈ chunks, c ≠ ([] : Chars)) → status / 100 = 2 →
        (chunks.map List.length).sum > 2 ^ 20 →
        fetch_file_as_chrome (FetchOutcome.response status chunks)
          = Except.error ())
      ∧ (status / 100 ≠ 2 →
        fetch_file_as_chrome (FetchOutcome.response status chunks)
          = Except.ok none)
      ∧ fetch_file_as_chrome FetchOutcome.transportFailure = Except.ok none := by
  intro status chunks
  refine ⟨?_, ?_, rfl⟩
  · intro hne h2 hgt
    have herr : fetch_loop [] chunks = Except.error () := by
      apply fetch_loop_error chunks [] hne
      · simp [MAX_FILE_SIZE]
      · simpa [MAX_FILE_SIZE] using hgt
    simp [fetch_file_as_chrome, h2, herr]
  · intro h2
    simp [fetch_file_as_chrome, h2]

/-- C1 witness: a single read of 2^20 + 1 bytes throws; a 404 response and
a transport failure return the empty option. -/
theorem C1_witness :
    fetch_file_as_chrome
        (FetchOutcome.response 200 [List.replicate (2 ^ 20 + 1) 'a'])
      = Except.error ()
    ∧ fetch_file_as_chrome (FetchOutcome.response 404 []) = Except.ok none
    ∧ fetch_file_as_chrome FetchOutcome.transportFailure = Except.ok none := by
  refine ⟨?_, ?_, ?_⟩
  · apply (C1_fetch_cap_behavior 200 [List.replicate (2 ^ 20 + 1) 'a']).1
    · intro c hc
      simp only [List.mem_singleton] at hc
      subst hc
      intro h
      have h2 := congrArg List.length h
      rw [List.length_replicate] at h2
      simp at h2
    · norm_num
    · rw [List.map_cons, List.map_nil, List.sum_cons, List.sum_nil,
        List.length_replicate]
      norm_num
  · exact (C1_fetch_cap_behavior 404 []).2.1 (by norm_num)
  · exact (C1_fetch_cap_behavior 0 []).2.2

end Lyricbar

namespace Lyricbar

/-! ## Claim C2: exception propagation out of the orchestrator -/

/-- An always-erroring fetch makes the retry loop throw on its first
iteration. -/
lemma scrape_go_error_of_fetch_error (g : GlibEnv)
    (fetch : Chars → Except Unit (Option Chars))
    (h : ∀ url, fetch url = Except.error ()) (artist : Chars) :
    ∀ fuel t, 0 < fuel → scrape_go g fetch artist fuel t = Except.error () := by
  intro fuel t hf
  cases fuel with
  | zero => omega
  | succ n => simp [scrape_go, h]

/-- When metadata, cache and script all come up empty and every fetch
throws, the exception propagates out of `update_lyrics`. -/
lemma update_lyrics_error_of (env : Env) (a t : Chars)
    (hmeta : get_lyrics_from_metadata env.track = none)
    (ha : env.track.artist = some a) (ht : env.track.title = some t)
    (hc : load_cached_lyrics env a t = none)
    (hs : get_lyrics_from_script env.script = none)
    (hf : ∀ url, env_fetch env url = Except.error ()) :
    update_lyrics env = Except.error () := by
  have hdl : download_lyrics_from_azlyrics env.glib (env_fetch env) env.track
      = Except.error () := by
    simp only [download_lyrics_from_azlyrics, ha, ht, scrape_loop]
    rw [scrape_go_error_of_fetch_error env.glib (env_fetch env) hf _ _ _
      (Nat.succ_pos _)]
  simp only [update_lyrics, hmeta, ha, ht, hc, providers,
    first_provider_result, hs, hdl]

/-- The single oversized read of `envBig` makes the stream loop throw. -/
lemma envBig_fetch_loop_error :
    fetch_loop [] [List.replicate (2 ^ 20 + 1) 'a'] = Except.error () := by
  rw [fetch_loop, List.length_replicate]
  norm_num [MAX_FILE_SIZE]

/-- Every fetch of `envBig` propagates the oversized-body fault. -/
lemma envBig_fetch_error : ∀ url : Chars,
    env_fetch envBig url = Except.error () := by
  intro url
  have h1 : env_fetch envBig url = fetch_file_as_chrome
      (FetchOutcome.response 200 [List.replicate (2 ^ 20 + 1) 'a']) := rfl
  rw [h1, fetch_file_as_chrome, if_neg, envBig_fetch_loop_error]
  norm_num

/-- C2 counterexample: in the concrete environment `envBig` — no embedded
lyrics, artist "a" and title "t" present, empty cache, script provider
disabled, every fetched body one byte over the 1 MiB cap — `update_lyrics`
terminates with a propagated exception, not a normal outcome: the scrape
provider's oversized-fetch fault escapes the orchestrator. -/
theorem C2_counterexample : update_lyrics envBig = Except.error () :=
  update_lyrics_error_of envBig (("a").toList) (("t").toList)
    rfl rfl rfl rfl rfl envBig_fetch_error

/-- A never-throwing fetch keeps the retry loop from throwing. -/
lemma scrape_go_ok_of_fetch_ok (g : GlibEnv)
    (fetch : Chars → Except Unit (Option Chars)) (artist : Chars)
    (h : ∀ url, ∃ r, fetch url = Except.ok r) :
    ∀ fuel t, ∃ r, scrape_go g fetch artist fuel t = Except.ok r := by
  intro fuel
  induction fuel with
  | zero => intro t; exact ⟨none, rfl⟩
  | succ n ih =>
    intro t
    obtain ⟨r, hr⟩ := h (azl_url (g.uriEscape artist)
      (g.uriEscape (alphadigitize g.isalpha g.isdigit t)))
    cases r with
    | some doc => exact ⟨some doc, by simp [scrape_go, hr]⟩
    | none =>
      cases htr : truncate_title t with
      | none => exact ⟨none, by simp [scrape_go, hr, htr]⟩
      | some t2 =>
        obtain ⟨r2, hr2⟩ := ih t2
        exact ⟨r2, by simp [scrape_go, hr, htr, hr2]⟩

/-- A never-throwing fetch keeps the whole scrape provider from throwing. -/
lemma download_ok_of_fetch_ok (g : GlibEnv)
    (fetch : Chars → Except Unit (Option Chars)) (track : Track)
    (h : ∀ url, ∃ r, fetch url = Except.ok r) :
    ∃ r, download_lyrics_from_azlyrics g fetch track = Except.ok r := by
  cases ha : track.artist with
  | none => exact ⟨none, by simp [download_lyrics_from_azlyrics, ha]⟩
  | some a =>
    cases ht : track.title with
    | none => exact ⟨none, by simp [download_lyrics_from_azlyrics, ha, ht]⟩
    | some t =>
      obtain ⟨r, hr⟩ := scrape_go_ok_of_fetch_ok g fetch
        (alphadigitize g.isalpha g.isdigit (a.map g.tolower)) h
        ((t.map g.tolower).length + 1) (t.map g.tolower)
      simp only [List.length_map] at hr
      cases r with
      | none =>
        exact ⟨none, by
          simp [download_lyrics_from_azlyrics, ha, ht, scrape_loop, hr]⟩
      | some doc =>
        exact ⟨process_document doc, by
          simp [download_lyrics_from_azlyrics, ha, ht, scrape_loop, hr]⟩

/-- A never-throwing fetch makes the whole orchestrator return a normal
outcome: every ordinary provider failure is absorbed into "try next" or
"not found". -/
lemma update_lyrics_ok_of_fetch_ok :
    ∀ env : Env, (∀ url, ∃ r, env_fetch env url = Except.ok r) →
      ∃ res, update_lyrics env = Except.ok res := by
  intro env h
  cases hm : get_lyrics_from_metadata env.track with
  | some l =>
    exact ⟨⟨[Published.lyrics l], none⟩, by simp [update_lyrics, hm]⟩
  | none =>
    cases ha : env.track.artist with
    | none =>
      cases ht : env.track.title with
      | none =>
        exact ⟨⟨[Published.notFound], none⟩, by simp [update_lyrics, hm, ha, ht]⟩
      | some t =>
        exact ⟨⟨[Published.notFound], none⟩, by simp [update_lyrics, hm, ha, ht]⟩
    | some a =>
      cases ht : env.track.title with
      | none =>
        exact ⟨⟨[Published.notFound], none⟩, by simp [update_lyrics, hm, ha, ht]⟩
      | some t =>
        cases hc : load_cached_lyrics env a t with
        | some l =>
          exact ⟨⟨[Published.lyrics l], none⟩, by
            simp [update_lyrics, hm, ha, ht, hc]⟩
        | none =>
          cases hs : get_lyrics_from_script env.script with
          | some s =>
            exact ⟨⟨[Published.loading, Published.lyrics s], some (a, t, s)⟩, by
              simp [update_lyrics, hm, ha, ht, hc, providers,
                first_provider_result, hs]⟩
          | none =>
            obtain ⟨r, hr⟩ := download_ok_of_fetch_ok env.glib (env_fetch env)
              env.track h
            cases r with
            | none =>
              exact ⟨⟨[Published.loading, Published.notFound], none⟩, by
                simp [update_lyrics, hm, ha, ht, hc, providers,
                  first_provider_result, hs, hr]⟩
            | some l =>
              exact ⟨⟨[Published.loading, Published.lyrics l], some (a, t, l)⟩, by
                simp [update_lyrics, hm, ha, ht, hc, providers,
                  first_provider_result, hs, hr]⟩

/-- An erroring read loop means the cumulative body size passed the cap. -/
lemma fetch_loop_error_oversize : ∀ (chunks : List Chars) (acc : Chars),
    fetch_loop acc chunks = Except.error () →
    MAX_FILE_SIZE < acc.length + (chunks.map List.length).sum := by
  intro chunks
  induction chunks with
  | nil => intro acc h; exact absurd h (by simp [fetch_loop])
  | cons c rest ih =>
    intro acc h
    by_cases h0 : c.length = 0
    · rw [fetch_loop, if_pos h0] at h
      exact absurd h (by simp)
    · by_cases hcap : acc.length + c.length > MAX_FILE_SIZE
      · simp only [List.map_cons, List.sum_cons]
        omega
      · rw [fetch_loop, if_neg h0, if_neg hcap] at h
        have hih := ih (acc ++ c) h
        simp only [List.length_append] at hih
        simp only [List.map_cons, List.sum_cons]
        omega

/-- A throwing `fetch_file_as_chrome` call can only come from a 2xx
response whose body exceeds the 1 MiB cap. -/
lemma fetch_file_error_oversize : ∀ o : FetchOutcome,
    fetch_file_as_chrome o = Except.error () →
    ∃ status chunks, o = FetchOutcome.response status chunks
      ∧ status / 100 = 2 ∧ (chunks.map List.length).sum > 2 ^ 20 := by
  intro o h
  cases o with
  | transportFailure => exact absurd h (by simp [fetch_file_as_chrome])
  | response status chunks =>
    by_cases h2 : status / 100 = 2
    · refine ⟨status, chunks, rfl, h2, ?_⟩
      have hne : ¬ (status / 100 ≠ 2) := by simp [h2]
      rw [fetch_file_as_chrome, if_neg hne] at h
      cases hl : fetch_loop [] chunks with
      | error e =>
        cases e
        have hsz := fetch_loop_error_oversize chunks [] hl
        simpa [MAX_FILE_SIZE] using hsz
      | ok res =>
        rw [hl] at h
        exact absurd h (by simp)
    · rw [fetch_file_as_chrome, if_pos h2] at h
      exact absurd h (by simp)

/-- C2 (amended): the orchestrator lets no exception escape EXCEPT the
scrape provider's oversized-fetch fault, and only that fault: (1) whenever
every fetch completes without throwing (returns `Except.ok`),
`update_lyrics` returns a normal outcome for every track — every ordinary
provider failure is absorbed into "try next" or "not found"; (2) whenever
an exception does escape `update_lyrics`, some URL's response was a 2xx
stream whose body exceeds the 1 MiB cap, i.e. exactly the oversized-fetch
fault thrown inside the scrape provider's fetch. -/
theorem C2_no_escape_except_oversized_fetch :
    (∀ env : Env, (∀ url, ∃ r, env_fetch env url = Except.ok r) →
      ∃ res, update_lyrics env = Except.ok res)
    ∧ (∀ env : Env, update_lyrics env = Except.error () →
      ∃ url status chunks,
        env.responses url = FetchOutcome.response status chunks
        ∧ status / 100 = 2
        ∧ (chunks.map List.length).sum > 2 ^ 20) := by
  constructor
  · exact update_lyrics_ok_of_fetch_ok
  · intro env herr
    have hurl : ∃ url, env_fetch env url = Except.error () := by
      by_contra hno
      push_neg at hno
      have hok : ∀ url, ∃ r, env_fetch env url = Except.ok r := by
        intro url
        cases hf : env_fetch env url with
        | error e => cases e; exact absurd hf (hno url)
        | ok r => exact ⟨r, rfl⟩
      obtain ⟨res, hres⟩ := update_lyrics_ok_of_fetch_ok env hok
      rw [herr] at hres
      exact absurd hres (by simp)
    obtain ⟨url, hfu⟩ := hurl
    obtain ⟨status, chunks, heq, h2, hsz⟩ :=
      fetch_file_error_oversize (env.responses url) hfu
    exact ⟨url, status, chunks, heq, h2, hsz⟩

/-- C2 witness: in `envOk` (all fetches fail at transport level, hence
never throw) the orchestrator returns a normal outcome; and for `envBig`,
whose orchestrator run throws (its every response body is one byte over the
cap), the escaping exception is traced back to an oversized 2xx
response. -/
theorem C2_witness :
    (∃ res, update_lyrics envOk = Except.ok res)
    ∧ (∃ url status chunks,
        envBig.responses url = FetchOutcome.response status chunks
        ∧ status / 100 = 2
        ∧ (chunks.map List.length).sum > 2 ^ 20) :=
  ⟨C2_no_escape_except_oversized_fetch.1 envOk (fun _ => ⟨none, rfl⟩),
   C2_no_escape_except_oversized_fetch.2 envBig
     (update_lyrics_error_of envBig (("a").toList) (("t").toList)
       rfl rfl rfl rfl rfl envBig_fetch_error)⟩

end Lyricbar

namespace Lyricbar

/-! ## Claim C3: provider chain ordering, first success wins, cache write -/

/-- C3: for every environment where embedded metadata yields nothing, artist
and title are present and the cache misses: (1) whenever the script provider
returns a value, the orchestrator publishes exactly that value and writes it
to the cache — regardless of what the scrape provider would do, since the
chain stops at the first success and the script provider comes strictly
first in `providers`; (2) whenever the script provider fails and the scrape
provider returns a value, that value is published and cached. -/
theorem C3_provider_chain_order :
    ∀ (env : Env) (a t : Chars),
      get_lyrics_from_metadata env.track = none →
      env.track.artist = some a →
      env.track.title = some t →
      load_cached_lyrics env a t = none →
      ((∀ s, get_lyrics_from_script env.script = some s →
          update_lyrics env
            = Except.ok ⟨[Published.loading, Published.lyrics s], some (a, t, s)⟩)
       ∧ (get_lyrics_from_script env.script = none →
          ∀ l, download_lyrics_from_azlyrics env.glib (env_fetch env) env.track
              = Except.ok (some l) →
          update_lyrics env
            = Except.ok ⟨[Published.loading, Published.lyrics l], some (a, t, l)⟩)) := by
  intro env a t hmeta ha ht hc
  constructor
  · intro s hs
    simp [update_lyrics, hmeta, ha, ht, hc, providers, first_provider_result, hs]
  · intro hs l hdl
    simp [update_lyrics, hmeta, ha, ht, hc, providers, first_provider_result,
      hs, hdl]

/-- C3 witness: in `env3` — no metadata, empty cache, script provider
succeeding with "S" — the orchestrator publishes "S" and caches it under
(artist "a", title "t"). -/
theorem C3_witness :
    update_lyrics env3
      = Except.ok ⟨[Published.loading, Published.lyrics (("S").toList)],
          some ((("a").toList), (("t").toList), (("S").toList))⟩ :=
  (C3_provider_chain_order env3 (("a").toList) (("t").toList) rfl rfl rfl rfl).1
    (("S").toList) rfl

/-! ## Claim C9: missing artist or title is terminal -/

/-- C9: when the embedded-metadata check fails and the artist or the title
field is absent, `update_lyrics` publishes exactly the "Lyrics not found"
placeholder with no cache write — and since this holds for every
environment, in particular for arbitrary cache and provider collaborators,
no cache lookup, cache write or provider invocation influences the
outcome. -/
theorem C9_absent_identity_not_found :
    ∀ env : Env, get_lyrics_from_metadata env.track = none →
      (env.track.artist = none ∨ env.track.title = none) →
      update_lyrics env = Except.ok ⟨[Published.notFound], none⟩ := by
  intro env hmeta h
  cases ha : env.track.artist with
  | none =>
    cases ht : env.track.title with
    | none => simp [update_lyrics, hmeta, ha, ht]
    | some t => simp [update_lyrics, hmeta, ha, ht]
  | some a =>
    cases ht : env.track.title with
    | none => simp [update_lyrics, hmeta, ha, ht]
    | some t =>
      rcases h with h | h
      · rw [ha] at h; exact absurd h (by simp)
      · rw [ht] at h; exact absurd h (by simp)

/-- C9 witness: the track of `env9` has an artist but no title; the
orchestrator reports "not found" with no other effect. -/
theorem C9_witness :
    update_lyrics env9 = Except.ok ⟨[Published.notFound], none⟩ :=
  C9_absent_identity_not_found env9 rfl (Or.inr rfl)

/-! ## Claim C8: script provider acceptance conditions -/

/-- C8: the script provider returns the empty option without reaching the
process-spawning call when the configured command template is empty or
unset; and it returns a value exactly when the template is nonempty, the
template compiles, its evaluation produces a command, spawning that command
reports exit status 0 with nonempty captured output that validates as
UTF-8 — the returned value being that output.  Every other case
(compilation failure, evaluation failure, spawn error, nonzero exit, empty
or invalid output) yields the empty option by the iff. -/
theorem C8_script_provider_contract :
    ∀ e : ScriptEnv,
      (e.customcmd = [] →
        get_lyrics_from_script e = none ∧ script_attempts_spawn e = false)
      ∧ (∀ s, get_lyrics_from_script e = some s ↔
          e.customcmd ≠ [] ∧ e.compiles = true ∧
          ∃ cmd, e.tf_eval = some cmd ∧
            ∃ out, e.spawn cmd = some (out, 0) ∧ out ≠ []
              ∧ e.validate out = true ∧ s = out) := by
  intro e
  constructor
  · intro h
    exact ⟨by simp [get_lyrics_from_script, h],
      by simp [script_attempts_spawn, h]⟩
  · intro s
    unfold get_lyrics_from_script
    by_cases h1 : e.customcmd = []
    · simp [h1]
    · by_cases h2 : e.compiles
      · cases htf : e.tf_eval with
        | none => simp [h1, h2, htf]
        | some cmd =>
          cases hsp : e.spawn cmd with
          | none => simp [h1, h2, htf, hsp]
          | some pr =>
            obtain ⟨out, st⟩ := pr
            by_cases h3 : out = []
            · simp [h1, h2, htf, hsp, h3]
            · by_cases h4 : st = 0
              · subst h4
                by_cases h5 : e.validate out
                · simp [h1, h2, htf, hsp, h3, h5]
                  exact eq_comm
                · simp [h1, h2, htf, hsp, h3, h5]
              · simp [h1, h2, htf, hsp, h3, h4]
      · simp [h1, h2]

/-- C8 witness: the disabled configuration returns nothing and never
spawns; the concrete succeeding configuration returns its output "S". -/
theorem C8_witness :
    (get_lyrics_from_script scriptOff = none
      ∧ script_attempts_spawn scriptOff = false)
    ∧ get_lyrics_from_script scriptOn = some (("S").toList) :=
  ⟨(C8_script_provider_contract scriptOff).1 rfl,
   ((C8_script_provider_contract scriptOn).2 (("S").toList)).mpr
     ⟨by decide, rfl, (("x").toList), rfl, (("S").toList), rfl,
      by decide, rfl, rfl⟩⟩

end Lyricbar

namespace Lyricbar

/-! ## Claim C4: title truncation and retry of the scrape provider -/

/-- C4: a failed fetch truncates the un-normalized title by dropping
trailing characters until the last one is a bracket — if none is found the
provider aborts with the empty option — and then drops that bracket too and
retries; concretely, for title "Song (Remix)" (lowercased on entry to the
loop) with a fetch succeeding only on the URL derived from "Song", the loop
fails on the full title's query and eventually succeeds with the fetched
document. -/
theorem C4_truncation_retry :
    (∀ t : Chars, (∀ c ∈ t, is_bracket c = false) → truncate_title t = none)
    ∧ (∀ (pre : Chars) (b : Char) (suf : Chars), is_bracket b = true →
        (∀ c ∈ suf, is_bracket c = false) →
        truncate_title (pre ++ b :: suf) = some pre)
    ∧ (fetch4 (azl_url (("artist").toList) (("songremix").toList))
        = Except.ok none
       ∧ scrape_loop glibAscii fetch4 (("artist").toList)
          ((("Song (Remix)").toList).map Char.toLower)
        = Except.ok (some (("DOC").toList))) := by
  refine ⟨?_, ?_, ?_, ?_⟩
  · intro t h
    unfold truncate_title
    have hall : ∀ c ∈ t.reverse, (!is_bracket c) = true := by
      intro c hc
      rw [List.mem_reverse] at hc
      simp [h c hc]
    have hdw := dropWhile_append_of_all (fun c => !is_bracket c) t.reverse [] hall
    rw [List.append_nil] at hdw
    rw [hdw]
    rfl
  · intro pre b suf hb hsuf
    unfold truncate_title
    have hrev : (pre ++ b :: suf).reverse = suf.reverse ++ b :: pre.reverse := by
      simp [List.reverse_append]
    rw [hrev]
    have hall : ∀ c ∈ suf.reverse, (!is_bracket c) = true := by
      intro c hc
      rw [List.mem_reverse] at hc
      simp [hsuf c hc]
    rw [dropWhile_append_of_all (fun c => !is_bracket c) suf.reverse
      (b :: pre.reverse) hall]
    simp [List.dropWhile_cons, hb]
  · rfl
  · rfl

/-- C4 witness: a bracket-free title truncates to `none` and a title with a
single '(' group truncates to the part before the bracket. -/
theorem C4_witness :
    truncate_title (("abc").toList) = none
    ∧ truncate_title ((("x").toList) ++ '(' :: (("yz").toList))
      = some (("x").toList) :=
  ⟨C4_truncation_retry.1 (("abc").toList) (by decide),
   C4_truncation_retry.2.1 (("x").toList) '(' (("yz").toList)
     (by decide) (by decide)⟩

/-! ## Claim C5: cleaning of the extracted lyrics fragment -/

/-- C5 counterexample: the cleaned text does not always end with exactly one
trailing newline, and the spec's example value carries a spurious trailing
space.  On `doc5b` the pipeline returns "A\n\n", which ends with two
newlines (the code only appends a newline when none is present, it never
collapses existing ones).  On `doc5a` — the spec §8 example — the result is
"Line oneLine two \"quoted\"\n" with no space before the newline, because
the greedy `\s*` preceding `</div>` in the extraction regex strips the
fragment's trailing whitespace before the capture, so the claimed value
"Line oneLine two \"quoted\" \n" is wrong. -/
theorem C5_counterexample :
    process_document doc5b = some (("A\n\n").toList)
    ∧ (("A\n\n").toList).getLast? = some '\n'
    ∧ ((("A\n\n").toList).dropLast).getLast? = some '\n'
    ∧ process_document doc5a = some (("Line oneLine two \"quoted\"\n").toList)
    ∧ (("Line oneLine two \"quoted\"\n").toList)
        ≠ (("Line oneLine two \"quoted\" \n").toList) := by
  refine ⟨by decide, by decide, by decide, by decide, by decide⟩

/-- C5 (amended): the cleaning step removes `<br>` tags, then strips the
remaining HTML tags, then unescapes `&quot;`; an empty cleaned text gives
the empty option, and otherwise the returned text ends in a newline — one
is appended exactly when the cleaned text does not already end with one
(so at least one, not exactly one, trailing newline); the spec §8 example
document cleans to "Line oneLine two \"quoted\"" plus one newline. -/
theorem C5_cleaning_contract :
    (∀ frag : Chars, replace_quot (strip_tags (remove_br frag)) = [] →
      clean_lyrics frag = none)
    ∧ (∀ frag t, clean_lyrics frag = some t → t ≠ [] ∧ t.getLast? = some '\n')
    ∧ process_document doc5a = some (("Line oneLine two \"quoted\"\n").toList) := by
  refine ⟨?_, ?_, by decide⟩
  · intro frag h
    simp [clean_lyrics, h]
  · intro frag t h
    unfold clean_lyrics at h
    by_cases hl : replace_quot (strip_tags (remove_br frag)) = []
    · simp [hl] at h
    · simp only [hl, if_false, Option.some_inj] at h
      by_cases hlast :
          (replace_quot (strip_tags (remove_br frag))).getLast? = some '\n'
      · rw [if_pos hlast] at h
        subst h
        exact ⟨hl, hlast⟩
      · rw [if_neg hlast] at h
        subst h
        constructor
        · simp
        · exact List.getLast?_concat _

/-- C5 witness: a fragment cleaning to nothing yields the empty option, and
a nonempty cleaned result indeed ends in a newline. -/
theorem C5_witness :
    clean_lyrics (("<b></b>").toList) = none
    ∧ (("x\n").toList ≠ [] ∧ (("x\n").toList).getLast? = some '\n') :=
  ⟨C5_cleaning_contract.1 (("<b></b>").toList) (by decide),
   C5_cleaning_contract.2.1 (("x").toList) (("x\n").toList) (by decide)⟩

/-! ## Claim C10: termination bound of the retry loop -/

/-- C10 counterexample: on title "(" (length 1) with an always-failing
fetch, the retry loop performs 2 failed fetch attempts — more than the
claimed bound of at most length-of-title failed iterations — before
returning the empty option: truncating "(" drops the bracket and retries
once more on the empty title, which fails without shrinking. -/
theorem C10_counterexample :
    scrape_calls glibAscii fetchNone (("artist").toList)
        (((("(").toList).length) + 1) (("(").toList) = 2
    ∧ 2 > ((("(").toList)).length
    ∧ scrape_loop glibAscii fetchNone (("artist").toList) (("(").toList)
      = Except.ok none := by
  refine ⟨by decide, by decide, rfl⟩

/-- C10 (amended): the retry loop terminates: every truncation step
strictly decreases the title length, so the loop performs at most
length-of-title + 1 fetch attempts (for any fuel) before succeeding with a
document or returning the empty option. -/
theorem C10_loop_terminates :
    (∀ t t2 : Chars, truncate_title t = some t2 → t2.length < t.length)
    ∧ (∀ (g : GlibEnv) (fetch : Chars → Except Unit (Option Chars))
        (artist : Chars) (fuel : Nat) (t : Chars),
        scrape_calls g fetch artist fuel t ≤ t.length + 1) := by
  refine ⟨truncate_title_length_lt, ?_⟩
  intro g fetch artist fuel
  induction fuel with
  | zero => intro t; simp [scrape_calls]
  | succ n ih =>
    intro t
    cases hf : fetch (azl_url (g.uriEscape artist)
        (g.uriEscape (alphadigitize g.isalpha g.isdigit t))) with
    | error e => simp [scrape_calls, hf]
    | ok r =>
      cases r with
      | some d => simp [scrape_calls, hf]
      | none =>
        cases htr : truncate_title t with
        | none => simp [scrape_calls, hf, htr]
        | some t2 =>
          have hlt := truncate_title_length_lt t t2 htr
          have hih := ih t2
          simp [scrape_calls, hf, htr]
          omega

/-- C10 witness: a concrete strict decrease and a concrete call bound. -/
theorem C10_witness :
    ((("a").toList)).length < ((("a(b").toList)).length
    ∧ scrape_calls glibAscii fetchNone (("artist").toList) 3 (("ab").toList)
      ≤ ((("ab").toList)).length + 1 :=
  ⟨C10_loop_terminates.1 (("a(b").toList) (("a").toList) (by decide),
   C10_loop_terminates.2 glibAscii fetchNone (("artist").toList) 3
     (("ab").toList)⟩

end Lyricbar
